import Mathlib

/-!
Verification of the guard-patrol-tracker scan decision engine and its
supporting dashboard computations, as a shallow embedding of the
TypeScript source (src/pages/guard/GuardDashboard.tsx, the admin
dashboard stats, and the live guard map component).

Strings are modelled as lists of characters.  JavaScript numbers are
modelled as rationals inside the decision engine (so that every branch
is computable and evaluable on concrete inputs) and as reals for the
Haversine distance function, which is inherently transcendental.  The
engine itself is parameterised by the distance function it calls, so
every control-flow theorem holds for any distance function and in
particular for the Haversine one.
-/

/-- Strings of the embedded program are lists of characters. -/
abbrev Str := List Char

/-- JavaScript truthiness of a nullable number: null and 0 are falsy,
every other number is truthy (NaN does not arise in the model). -/
def truthy : Option ℚ → Bool
  | none => false
  | some x => decide (x ≠ 0)

/-- Numeric value of a nullable number when it is used as a number
(only ever consulted under a truthiness guard in the source). -/
def jsNum (x : Option ℚ) : ℚ := x.getD 0

/-- JavaScript Math.round: round half toward positive infinity. -/
def jsRound (q : ℚ) : ℤ := Int.floor (q + 1/2)

/-- JavaScript String.replace with a plain-string pattern: replace the
first occurrence of the pattern (if any) by the replacement. -/
def jsReplaceFirst : Str → Str → Str → Str
  | [], pat, repl => if pat = [] then repl else []
  | c :: cs, pat, repl =>
    if pat.isPrefixOf (c :: cs) then repl ++ (c :: cs).drop pat.length
    else c :: jsReplaceFirst cs pat repl

/-- The literal tag that may precede a checkpoint identifier in a QR
payload (GuardDashboard.tsx line 241). -/
def cpTag : Str := "checkpoint:".toList

/-- Resolution of the checkpoint identifier from the decoded QR payload
(GuardDashboard.tsx lines 240-243): strip the tag via String.replace
when the payload starts with it, otherwise use the payload unchanged. -/
def resolveCheckpointId (payload : Str) : Str :=
  if cpTag.isPrefixOf payload then jsReplaceFirst payload cpTag []
  else payload

/-- Checkpoint record (src/types, interface Checkpoint).  The field
named distance is the per-checkpoint allowed scanning radius in meters
added by the migration with comment "Allowed scanning distance from
checkpoint in meters"; note the scan engine below never reads it. -/
structure Checkpoint where
  id : Str
  name : Str
  location : Str
  latitude : Option ℚ
  longitude : Option ℚ
  distance : Option ℚ
  created_at : Str
  created_by : Option Str
  deriving DecidableEq, Repr

/-- A row of the scans table (src/types, interface Scan); scanned_at is
a timestamp in seconds. -/
structure Scan where
  id : Str
  guard_id : Str
  guard_name : Str
  checkpoint_id : Str
  checkpoint_name : Str
  scanned_at : ℚ
  latitude : Option ℚ
  longitude : Option ℚ
  deriving DecidableEq, Repr

/-- The record inserted into the scans table by the engine
(GuardDashboard.tsx lines 304-311, scanData); id and scanned_at are
assigned by the server and so do not appear. -/
structure ScanData where
  guard_id : Str
  guard_name : Str
  checkpoint_id : Str
  checkpoint_name : Str
  latitude : Option ℚ
  longitude : Option ℚ
  deriving DecidableEq, Repr

/-- UI-facing scan status (GuardDashboard.tsx line 33). -/
inductive ScanStatus where
  | idle
  | scanning
  | success
  | error
  | duplicate
  | location_warning
  deriving DecidableEq, Repr

/-- Message shown when the checkpoint lookup fails
(GuardDashboard.tsx line 254). -/
def invalidCheckpointMsg : Str := "Invalid checkpoint QR code".toList

/-- Message shown for a duplicate scan (GuardDashboard.tsx line 269). -/
def duplicateMsg : Str := "Already scanned within 5 minutes".toList

/-- Message shown with a location warning (GuardDashboard.tsx line 326);
the interpolated rounded distance is spliced in by concatenation. -/
def locationWarningMsg (n : ℤ) : Str :=
  "You are ".toList ++ (toString n).toList ++
    "m away from checkpoint (max 100m)".toList

/-- Ambient context of one invocation of handleScanSuccess: the decoded
payload, the guard identity, the checkpoint directory, the scan ledger
with the current wall-clock time (seconds), the geolocation outcome
(none when denied or timed out), and whether the ledger insert would
succeed (false models a connectivity failure; insertErrMsg is the
message of the thrown error). -/
structure ScanEnv where
  payload : Str
  guardId : Str
  guardName : Str
  directory : List Checkpoint
  ledger : List Scan
  now : ℚ
  deviceLoc : Option (ℚ × ℚ)
  insertOk : Bool
  insertErrMsg : Str

/-- Outcome of one invocation: the terminal status, the message shown,
the record written to the scan ledger (none when nothing was written),
and the rounded distance surfaced in the warning or success message
(GuardDashboard.tsx lines 326 and 336). -/
structure ScanResult where
  status : ScanStatus
  errorMessage : Str
  inserted : Option ScanData
  reportedDistanceM : Option ℤ
  deriving DecidableEq, Repr

/-- Checkpoint lookup by identifier (GuardDashboard.tsx lines 246-250,
a single-row select on id). -/
def lookupCheckpoint (dir : List Checkpoint) (cid : Str) : Option Checkpoint :=
  dir.find? (fun c => decide (c.id = cid))

/-- Prior scans by this guard for this checkpoint whose scanned-at time
is at least five minutes ago (GuardDashboard.tsx lines 258-265). -/
def duplicateWindowScans (ledger : List Scan) (gid cid : Str) (now : ℚ) :
    List Scan :=
  ledger.filter (fun s =>
    decide (s.guard_id = gid) && decide (s.checkpoint_id = cid) &&
      decide (now - 300 ≤ s.scanned_at))

/-- The distance computed from the device position to the checkpoint
(GuardDashboard.tsx lines 274-292): null when geolocation failed, and
null when any of the four coordinates is falsy (null or zero); dist is
the distance function the engine calls (calculateDistance in the
source). -/
def deviceDistance (dist : ℚ → ℚ → ℚ → ℚ → ℚ) (cp : Checkpoint)
    (loc : Option (ℚ × ℚ)) : Option ℚ :=
  match loc with
  | none => none
  | some (la, ln) =>
    if truthy cp.latitude && truthy cp.longitude &&
        decide (la ≠ 0) && decide (ln ≠ 0) then
      some (dist la ln (jsNum cp.latitude) (jsNum cp.longitude))
    else none

/-- The hard-coded GPS verification threshold
(GuardDashboard.tsx line 298). -/
def MAX_DISTANCE_METERS : ℚ := 100

/-- One evaluation of handleScanSuccess after the single-flight latch
(GuardDashboard.tsx lines 239-344), parameterised by the distance
function: resolve the identifier, look up the checkpoint, reject
duplicates inside the five-minute window, compute the optional
distance, insert the scan record, and classify the outcome. -/
def scanEval (dist : ℚ → ℚ → ℚ → ℚ → ℚ) (env : ScanEnv) : ScanResult :=
  let checkpointId := resolveCheckpointId env.payload
  match lookupCheckpoint env.directory checkpointId with
  | none =>
    { status := .error, errorMessage := invalidCheckpointMsg,
      inserted := none, reportedDistanceM := none }
  | some cp =>
    if (duplicateWindowScans env.ledger env.guardId checkpointId
        env.now).length > 0 then
      { status := .duplicate, errorMessage := duplicateMsg,
        inserted := none, reportedDistanceM := none }
    else
      let lat : Option ℚ := env.deviceLoc.map Prod.fst
      let lng : Option ℚ := env.deviceLoc.map Prod.snd
      let distanceFromCheckpoint := deviceDistance dist cp env.deviceLoc
      let hasCheckpointGPS := truthy cp.latitude && truthy cp.longitude
      let isTooFar := hasCheckpointGPS && distanceFromCheckpoint.isSome &&
        decide (MAX_DISTANCE_METERS < jsNum distanceFromCheckpoint)
      let scanData : ScanData :=
        { guard_id := env.guardId, guard_name := env.guardName,
          checkpoint_id := checkpointId, checkpoint_name := cp.name,
          latitude := lat, longitude := lng }
      if env.insertOk then
        if isTooFar && truthy distanceFromCheckpoint then
          { status := .location_warning,
            errorMessage := locationWarningMsg
              (jsRound (jsNum distanceFromCheckpoint)),
            inserted := some scanData,
            reportedDistanceM := some (jsRound (jsNum distanceFromCheckpoint)) }
        else
          { status := .success, errorMessage := [],
            inserted := some scanData,
            reportedDistanceM := distanceFromCheckpoint.map jsRound }
      else
        { status := .error, errorMessage := env.insertErrMsg,
          inserted := none, reportedDistanceM := none }

/-- JavaScript Math.atan2: the angle of the point (x, y), following the
sign conventions of the IEEE function on non-NaN inputs. -/
noncomputable def atan2 (y x : ℝ) : ℝ :=
  if 0 < x then Real.arctan (y / x)
  else if x < 0 ∧ 0 ≤ y then Real.arctan (y / x) + Real.pi
  else if x < 0 then Real.arctan (y / x) - Real.pi
  else if 0 < y then Real.pi / 2
  else if y < 0 then -(Real.pi / 2)
  else 0

/-- Great-circle distance in meters between two GPS points by the
Haversine formula (GuardDashboard.tsx lines 17-31), with degrees
converted to radians and earth radius 6371e3 meters. -/
noncomputable def calculateDistance (lat1 lon1 lat2 lon2 : ℝ) : ℝ :=
  let R : ℝ := 6371e3
  let phi1 := lat1 * Real.pi / 180
  let phi2 := lat2 * Real.pi / 180
  let dphi := (lat2 - lat1) * Real.pi / 180
  let dlam := (lon2 - lon1) * Real.pi / 180
  let a := Real.sin (dphi / 2) * Real.sin (dphi / 2) +
    Real.cos phi1 * Real.cos phi2 *
      (Real.sin (dlam / 2) * Real.sin (dlam / 2))
  let c := 2 * atan2 (Real.sqrt a) (Real.sqrt (1 - a))
  R * c

/-- Haversine distance exactly as the specification writes it: a equals
sin-squared of half the latitude delta plus the product of the two
latitude cosines and sin-squared of half the longitude delta, c equals
twice the atan2 of the square roots, and the distance is
EARTH_RADIUS_METERS times c with EARTH_RADIUS_METERS equal to
6,371,000, over radian-converted inputs where index 1 is the device and
index 2 the checkpoint. -/
noncomputable def haversineSpecDistance (lat1 lon1 lat2 lon2 : ℝ) : ℝ :=
  let EARTH_RADIUS_METERS : ℝ := 6371000
  let phi1 := lat1 * (Real.pi / 180)
  let phi2 := lat2 * (Real.pi / 180)
  let dphi := (lat2 - lat1) * (Real.pi / 180)
  let dlam := (lon2 - lon1) * (Real.pi / 180)
  let a := Real.sin (dphi / 2) ^ 2 +
    Real.cos phi1 * Real.cos phi2 * Real.sin (dlam / 2) ^ 2
  let c := 2 * atan2 (Real.sqrt a) (Real.sqrt (1 - a))
  EARTH_RADIUS_METERS * c

/-- Events of one scanning session: a decode callback from the camera
frame loop (carrying the ambient context of that invocation), or the
explicit reset action of the status screens (resetScanner). -/
inductive SessionEvent where
  | decode (env : ScanEnv)
  | reset

/-- Session state relevant to the single-flight property: the
processing latch (isProcessingScanRef) and the number of records
inserted into the scan ledger so far. -/
structure SessionState where
  isProcessingScan : Bool
  insertCount : ℕ

/-- One event of a scanning session (GuardDashboard.tsx lines 219-237
and 347-354): a decode callback returns immediately when the latch is
set, otherwise sets the latch and runs one evaluation (counting its
ledger insert when it performs one); the latch is never cleared by the
evaluation itself, only the explicit reset clears it. -/
def sessionStep (dist : ℚ → ℚ → ℚ → ℚ → ℚ) (s : SessionState) :
    SessionEvent → SessionState
  | .decode env =>
    if s.isProcessingScan then s
    else
      { isProcessingScan := true,
        insertCount := s.insertCount +
          (if (scanEval dist env).inserted.isSome then 1 else 0) }
  | .reset => { s with isProcessingScan := false }

/-- A whole scanning session: fold the step function over the events. -/
def sessionRun (dist : ℚ → ℚ → ℚ → ℚ → ℚ) (s : SessionState)
    (evs : List SessionEvent) : SessionState :=
  evs.foldl (sessionStep dist) s

/-- Coverage counter of the admin dashboard (AdminDashboard fetchStats):
the number of distinct checkpoint identifiers among today's scans,
divided by the checkpoint count, times 100, rounded by Math.round; 0
when the checkpoint count is falsy. -/
def coveragePercent (todayCheckpointIds : List Str)
    (checkpointCount : ℕ) : ℤ :=
  if checkpointCount = 0 then 0
  else jsRound (((todayCheckpointIds.dedup.length : ℚ) /
    (checkpointCount : ℚ)) * 100)

/-- A row of the guard_locations table as consumed by the live map. -/
structure GuardLocation where
  id : Str
  guard_id : Str
  guard_name : Str
  latitude : ℚ
  longitude : ℚ
  status : Str
  updated_at : ℚ
  deriving DecidableEq, Repr

/-- Minutes elapsed since a row's updated_at timestamp (milliseconds),
as computed in LiveGuardMap. -/
def minutesAgo (now updatedAt : ℚ) : ℚ := (now - updatedAt) / 60000

/-- Status label of the live-tracking list (LiveGuardMap
getStatusLabel): stale rows are Offline regardless of stored status. -/
def getStatusLabel (status : Str) (m : ℚ) : Str :=
  if 5 < m then "Offline".toList
  else if status = "on_patrol".toList then "On Patrol".toList
  else if status = "idle".toList then "Idle".toList
  else "Offline".toList

/-- The active-guards filter of the live-tracking view (LiveGuardMap
activeGuards): rows at most five minutes old whose status is not
offline. -/
def activeGuards (now : ℚ) (rows : List GuardLocation) :
    List GuardLocation :=
  rows.filter (fun g =>
    decide (minutesAgo now g.updated_at ≤ 5) &&
      decide (g.status ≠ "offline".toList))

/-- The scan record the engine writes for an evaluation that passed the
checkpoint lookup and the duplicate check. -/
def scanDataOf (env : ScanEnv) (cp : Checkpoint) : ScanData :=
  { guard_id := env.guardId, guard_name := env.guardName,
    checkpoint_id := resolveCheckpointId env.payload,
    checkpoint_name := cp.name,
    latitude := env.deviceLoc.map Prod.fst,
    longitude := env.deviceLoc.map Prod.snd }

/-- The result of an evaluation that passed the checkpoint lookup and
the duplicate check and whose ledger insert succeeded: the
location-warning classification of GuardDashboard.tsx lines 297-338. -/
def scanPassResult (dist : ℚ → ℚ → ℚ → ℚ → ℚ) (env : ScanEnv)
    (cp : Checkpoint) : ScanResult :=
  let distanceFromCheckpoint := deviceDistance dist cp env.deviceLoc
  let hasCheckpointGPS := truthy cp.latitude && truthy cp.longitude
  let isTooFar := hasCheckpointGPS && distanceFromCheckpoint.isSome &&
    decide (MAX_DISTANCE_METERS < jsNum distanceFromCheckpoint)
  if isTooFar && truthy distanceFromCheckpoint then
    { status := .location_warning,
      errorMessage := locationWarningMsg
        (jsRound (jsNum distanceFromCheckpoint)),
      inserted := some (scanDataOf env cp),
      reportedDistanceM := some (jsRound (jsNum distanceFromCheckpoint)) }
  else
    { status := .success, errorMessage := [],
      inserted := some (scanDataOf env cp),
      reportedDistanceM := distanceFromCheckpoint.map jsRound }

/-- Checkpoint with a configured allowed radius of 250 meters. -/
def c1Checkpoint : Checkpoint :=
  ⟨"abc".toList, "Gate 1".toList, "East wing".toList,
    some 19, some 72, some 250, [], none⟩

/-- A scan of that checkpoint by a guard whose device has a location. -/
def c1Env : ScanEnv :=
  ⟨"abc".toList, "g1".toList, "Guard One".toList, [c1Checkpoint], [],
    1000, some (19, 72), true, []⟩

/-- A payload whose resolved identifier matches no checkpoint. -/
def c2EnvUnknown : ScanEnv :=
  ⟨"zzz".toList, "g1".toList, "Guard One".toList, [], [], 0, none,
    true, []⟩

/-- A checkpoint without GPS coordinates. -/
def c2Checkpoint : Checkpoint :=
  ⟨"abc".toList, "Gate".toList, "East".toList, none, none, none, [],
    none⟩

/-- A scan of an existing checkpoint whose ledger insert fails. -/
def c2EnvInsertFail : ScanEnv :=
  ⟨"abc".toList, "g1".toList, "Guard One".toList, [c2Checkpoint], [],
    0, none, false, "Network error".toList⟩

/-- A checkpoint without GPS coordinates, for the duplicate boundary. -/
def c3Checkpoint : Checkpoint :=
  ⟨"cp1".toList, "North gate".toList, "North".toList, none, none, none,
    [], none⟩

/-- A prior scan of that checkpoint at time 0. -/
def c3PriorScan : Scan :=
  ⟨"s1".toList, "g1".toList, "Guard One".toList, "cp1".toList,
    "North gate".toList, 0, none, none⟩

/-- A second scan of the same checkpoint by the same guard exactly five
minutes (300 seconds) after the prior scan. -/
def c3Env : ScanEnv :=
  ⟨"cp1".toList, "g1".toList, "Guard One".toList, [c3Checkpoint],
    [c3PriorScan], 300, none, true, []⟩

/-- A second scan of the same checkpoint by the same guard strictly
more than five minutes (301 seconds) after the prior scan. -/
def c3LateEnv : ScanEnv :=
  ⟨"cp1".toList, "g1".toList, "Guard One".toList, [c3Checkpoint],
    [c3PriorScan], 301, none, true, []⟩

/-- A checkpoint with GPS coordinates and the default radius. -/
def c4Checkpoint : Checkpoint :=
  ⟨"cp9".toList, "South gate".toList, "South".toList,
    some 19, some 72, some 100, [], none⟩

/-- An out-of-range scan: the distance function reports 150 meters. -/
def c4Env : ScanEnv :=
  ⟨"cp9".toList, "g2".toList, "Guard Two".toList, [c4Checkpoint], [],
    500, some (21, 73), true, []⟩

/-- A session-level evaluation context used to exercise the latch. -/
def c5Env : ScanEnv :=
  ⟨"cp1".toList, "g1".toList, "Guard One".toList, [], [], 0, none,
    true, []⟩

/-- A tagged payload whose resolved identifier matches no checkpoint. -/
def c7Env : ScanEnv :=
  ⟨"checkpoint:abc".toList, "g1".toList, "Guard One".toList, [], [], 0,
    none, true, []⟩

/-- A checkpoint sitting exactly on the equator: latitude 0. -/
def c9Checkpoint : Checkpoint :=
  ⟨"eq1".toList, "Equator gate".toList, "South".toList,
    some 0, some 72, none, [], none⟩

/-- A scan of the equator checkpoint from a device far away. -/
def c9Env : ScanEnv :=
  ⟨"eq1".toList, "g1".toList, "Guard One".toList, [c9Checkpoint], [],
    0, some (45, 120), true, []⟩

lemma jsReplaceFirst_of_isPrefixOf (s pat : Str)
    (h : pat.isPrefixOf s = true) :
    jsReplaceFirst s pat [] = s.drop pat.length := by
  cases s with
  | nil => simp [jsReplaceFirst]
  | cons c cs => simp [jsReplaceFirst, h]

lemma resolveCheckpointId_of_tag (p : Str)
    (h : cpTag.isPrefixOf p = true) :
    resolveCheckpointId p = p.drop cpTag.length := by
  rw [resolveCheckpointId, if_pos h, jsReplaceFirst_of_isPrefixOf p cpTag h]

lemma resolveCheckpointId_of_no_tag (p : Str)
    (h : cpTag.isPrefixOf p = false) :
    resolveCheckpointId p = p := by
  rw [resolveCheckpointId, if_neg]
  simp [h]

lemma mem_duplicateWindowScans {s : Scan} {ledger : List Scan}
    {gid cid : Str} {now : ℚ} :
    s ∈ duplicateWindowScans ledger gid cid now ↔
      s ∈ ledger ∧ s.guard_id = gid ∧ s.checkpoint_id = cid ∧
        now - 300 ≤ s.scanned_at := by
  simp [duplicateWindowScans, List.mem_filter, and_assoc]

lemma scanEval_of_lookup_none (dist : ℚ → ℚ → ℚ → ℚ → ℚ) (env : ScanEnv)
    (h : lookupCheckpoint env.directory (resolveCheckpointId env.payload)
      = none) :
    scanEval dist env =
      ⟨.error, invalidCheckpointMsg, none, none⟩ := by
  simp only [scanEval, h]

lemma scanEval_of_duplicate (dist : ℚ → ℚ → ℚ → ℚ → ℚ) (env : ScanEnv)
    (cp : Checkpoint)
    (hcp : lookupCheckpoint env.directory (resolveCheckpointId env.payload)
      = some cp)
    (hdup : 0 < (duplicateWindowScans env.ledger env.guardId
      (resolveCheckpointId env.payload) env.now).length) :
    scanEval dist env = ⟨.duplicate, duplicateMsg, none, none⟩ := by
  simp only [scanEval, hcp, gt_iff_lt, if_pos hdup]

lemma scanEval_of_pass (dist : ℚ → ℚ → ℚ → ℚ → ℚ) (env : ScanEnv)
    (cp : Checkpoint)
    (hcp : lookupCheckpoint env.directory (resolveCheckpointId env.payload)
      = some cp)
    (hdup : duplicateWindowScans env.ledger env.guardId
      (resolveCheckpointId env.payload) env.now = [])
    (hins : env.insertOk = true) :
    scanEval dist env = scanPassResult dist env cp := by
  simp only [scanEval, hcp, hdup, hins, List.length_nil, gt_iff_lt,
    lt_irrefl, if_false, if_true, scanPassResult, scanDataOf]

lemma scanEval_of_insert_fail (dist : ℚ → ℚ → ℚ → ℚ → ℚ) (env : ScanEnv)
    (cp : Checkpoint)
    (hcp : lookupCheckpoint env.directory (resolveCheckpointId env.payload)
      = some cp)
    (hdup : duplicateWindowScans env.ledger env.guardId
      (resolveCheckpointId env.payload) env.now = [])
    (hins : env.insertOk = false) :
    scanEval dist env = ⟨.error, env.insertErrMsg, none, none⟩ := by
  simp only [scanEval, hcp, hdup, hins, List.length_nil, gt_iff_lt,
    lt_irrefl, if_false, Bool.false_eq_true]

lemma atan2_zero_one : atan2 0 1 = 0 := by
  rw [atan2, if_pos (by norm_num : (0:ℝ) < 1)]
  norm_num

lemma calculateDistance_self (la lo : ℝ) :
    calculateDistance la lo la lo = 0 := by
  simp only [calculateDistance, sub_self, zero_mul, zero_div,
    Real.sin_zero, mul_zero, add_zero, zero_add, Real.sqrt_zero,
    sub_zero, Real.sqrt_one]
  rw [atan2_zero_one]
  ring

lemma calculateDistance_comm (lat1 lon1 lat2 lon2 : ℝ) :
    calculateDistance lat1 lon1 lat2 lon2 =
      calculateDistance lat2 lon2 lat1 lon1 := by
  simp only [calculateDistance]
  have hsin : ∀ x : ℝ, Real.sin (-x * Real.pi / 180 / 2) *
      Real.sin (-x * Real.pi / 180 / 2) =
      Real.sin (x * Real.pi / 180 / 2) * Real.sin (x * Real.pi / 180 / 2) := by
    intro x
    have h : -x * Real.pi / 180 / 2 = -(x * Real.pi / 180 / 2) := by ring
    rw [h, Real.sin_neg]
    ring
  have h1 : lat1 - lat2 = -(lat2 - lat1) := by ring
  have h2 : lon1 - lon2 = -(lon2 - lon1) := by ring
  rw [h1, h2, hsin (lat2 - lat1), hsin (lon2 - lon1),
    mul_comm (Real.cos (lat2 * Real.pi / 180))
      (Real.cos (lat1 * Real.pi / 180))]

lemma calculateDistance_eq_haversineSpec (lat1 lon1 lat2 lon2 : ℝ) :
    calculateDistance lat1 lon1 lat2 lon2 =
      haversineSpecDistance lat1 lon1 lat2 lon2 := by
  simp only [calculateDistance, haversineSpecDistance, mul_div_assoc,
    pow_two]
  norm_num

lemma scanPassResult_inserted (dist : ℚ → ℚ → ℚ → ℚ → ℚ) (env : ScanEnv)
    (cp : Checkpoint) :
    (scanPassResult dist env cp).inserted = some (scanDataOf env cp) := by
  simp only [scanPassResult]
  split <;> rfl

lemma scanPassResult_reported (dist : ℚ → ℚ → ℚ → ℚ → ℚ) (env : ScanEnv)
    (cp : Checkpoint) :
    (scanPassResult dist env cp).reportedDistanceM =
      (deviceDistance dist cp env.deviceLoc).map jsRound := by
  cases hd : deviceDistance dist cp env.deviceLoc with
  | none => simp [scanPassResult, hd, truthy]
  | some d0 =>
    simp only [scanPassResult, hd, jsNum, Option.getD_some, Option.map_some]
    split <;> rfl

lemma scanPassResult_warning_isSome (dist : ℚ → ℚ → ℚ → ℚ → ℚ)
    (env : ScanEnv) (cp : Checkpoint)
    (h : (scanPassResult dist env cp).status = ScanStatus.location_warning) :
    (deviceDistance dist cp env.deviceLoc).isSome = true := by
  cases hd : deviceDistance dist cp env.deviceLoc with
  | none => simp [scanPassResult, hd, truthy] at h
  | some d0 => rfl

lemma scanPassResult_status_not_duplicate (dist : ℚ → ℚ → ℚ → ℚ → ℚ)
    (env : ScanEnv) (cp : Checkpoint) :
    (scanPassResult dist env cp).status ≠ ScanStatus.duplicate := by
  simp only [scanPassResult]
  split <;> simp

lemma scanPassResult_status_success_of_none (dist : ℚ → ℚ → ℚ → ℚ → ℚ)
    (env : ScanEnv) (cp : Checkpoint)
    (hd : deviceDistance dist cp env.deviceLoc = none) :
    (scanPassResult dist env cp).status = ScanStatus.success := by
  simp [scanPassResult, hd, truthy]

/-- C6: the distance function implements the Haversine great-circle
formula with earth radius 6,371,000 m exactly as specified; the
distance from a point to itself is 0, and the result is symmetric in
the sign of the latitude and longitude deltas (swapping the two
points). -/
theorem haversine_distance_properties :
    (∀ lat1 lon1 lat2 lon2 : ℝ, calculateDistance lat1 lon1 lat2 lon2 =
      haversineSpecDistance lat1 lon1 lat2 lon2) ∧
    (∀ la lo : ℝ, calculateDistance la lo la lo = 0) ∧
    (∀ lat1 lon1 lat2 lon2 : ℝ, calculateDistance lat1 lon1 lat2 lon2 =
      calculateDistance lat2 lon2 lat1 lon1) :=
  ⟨calculateDistance_eq_haversineSpec, calculateDistance_self,
    calculateDistance_comm⟩

/-- C7: the resolved checkpoint identifier is the payload with one
leading literal checkpoint tag removed when the payload starts with the
tag, and the payload unchanged otherwise; a payload of any other format
gets no distinct parse-error outcome — it is looked up as-is, and a
failed directory lookup produces the invalid-checkpoint outcome (the
error status with the invalid-checkpoint message) with no record
written. -/
theorem qr_payload_resolution :
    (∀ p : Str, cpTag.isPrefixOf p = true →
      resolveCheckpointId p = p.drop cpTag.length) ∧
    (∀ p : Str, cpTag.isPrefixOf p = false →
      resolveCheckpointId p = p) ∧
    (∀ (dist : ℚ → ℚ → ℚ → ℚ → ℚ) (env : ScanEnv),
      lookupCheckpoint env.directory (resolveCheckpointId env.payload)
        = none →
      (scanEval dist env).status = ScanStatus.error ∧
      (scanEval dist env).errorMessage = invalidCheckpointMsg ∧
      (scanEval dist env).inserted = none) := by
  refine ⟨resolveCheckpointId_of_tag, resolveCheckpointId_of_no_tag,
    fun dist env h => ?_⟩
  rw [scanEval_of_lookup_none dist env h]
  exact ⟨rfl, rfl, rfl⟩

/-- Witness for C7 at the tagged payload "checkpoint:abc" and at a
directory that does not contain the resolved identifier. -/
theorem qr_payload_resolution_witness :
    (cpTag.isPrefixOf "checkpoint:abc".toList = true ∧
      resolveCheckpointId "checkpoint:abc".toList =
        "checkpoint:abc".toList.drop cpTag.length) ∧
    (cpTag.isPrefixOf "abc".toList = false ∧
      resolveCheckpointId "abc".toList = "abc".toList) ∧
    (lookupCheckpoint c7Env.directory
        (resolveCheckpointId c7Env.payload) = none ∧
      (scanEval (fun _ _ _ _ => 0) c7Env).status = ScanStatus.error ∧
      (scanEval (fun _ _ _ _ => 0) c7Env).errorMessage =
        invalidCheckpointMsg ∧
      (scanEval (fun _ _ _ _ => 0) c7Env).inserted = none) :=
  ⟨⟨by decide, qr_payload_resolution.1 _ (by decide)⟩,
    ⟨by decide, qr_payload_resolution.2.1 _ (by decide)⟩,
    ⟨by decide, qr_payload_resolution.2.2 _ c7Env (by decide)⟩⟩

/-- C8: the dashboard coverage counter is 0 when the total number of
checkpoints is 0, and otherwise equals the number of distinct
checkpoints scanned today divided by the total, times 100, rounded to
the nearest integer; 2 distinct checkpoints out of 3 give 67. -/
theorem coverage_percent_correct :
    (∀ ids : List Str, coveragePercent ids 0 = 0) ∧
    (∀ (ids : List Str) (n : ℕ), n ≠ 0 →
      coveragePercent ids n =
        jsRound (((ids.toFinset.card : ℚ) / (n : ℚ)) * 100)) ∧
    coveragePercent ["cp1".toList, "cp2".toList, "cp1".toList] 3 = 67 := by
  refine ⟨fun ids => by simp [coveragePercent], fun ids n hn => ?_, ?_⟩
  · rw [coveragePercent, if_neg hn, List.card_toFinset]
  · have hd : (["cp1".toList, "cp2".toList, "cp1".toList] :
        List Str).dedup.length = 2 := by decide
    simp only [coveragePercent, hd]
    norm_num [jsRound]

/-- Witness for C8 at 3 total checkpoints and a scan list with 2
distinct identifiers. -/
theorem coverage_percent_correct_witness :
    (3 : ℕ) ≠ 0 ∧
    coveragePercent ["cp1".toList, "cp2".toList, "cp1".toList] 3 =
      jsRound ((((["cp1".toList, "cp2".toList, "cp1".toList] :
        List Str).toFinset.card : ℚ) / (3 : ℚ)) * 100) :=
  ⟨by decide, coverage_percent_correct.2.1 _ 3 (by decide)⟩

/-- C10: the live-tracking view labels every guard-location row whose
updated_at is more than 5 minutes in the past as Offline regardless of
its stored status, and counts a guard as active exactly when the row is
at most 5 minutes old and its status is not offline. -/
theorem live_tracking_staleness :
    (∀ (status : Str) (now u : ℚ), 5 < minutesAgo now u →
      getStatusLabel status (minutesAgo now u) = "Offline".toList) ∧
    (∀ (now : ℚ) (rows : List GuardLocation) (g : GuardLocation),
      g ∈ activeGuards now rows ↔
        g ∈ rows ∧ minutesAgo now g.updated_at ≤ 5 ∧
          g.status ≠ "offline".toList) := by
  constructor
  · intro status now u h
    rw [getStatusLabel, if_pos h]
  · intro now rows g
    simp [activeGuards, List.mem_filter]

/-- Witness for C10: a row 6 minutes old with stored status on_patrol
is labelled Offline. -/
theorem live_tracking_staleness_witness :
    (5 : ℚ) < minutesAgo 360000 0 ∧
    getStatusLabel "on_patrol".toList (minutesAgo 360000 0) =
      "Offline".toList :=
  ⟨by norm_num [minutesAgo], live_tracking_staleness.1 _ 360000 0
    (by norm_num [minutesAgo])⟩

/-- C2 counterexample: a scan whose resolved identifier matches no
checkpoint terminates with the same status constructor as a generic
infrastructure error (a failed ledger insert) — the status type of the
code has no distinct invalid-checkpoint state — so the outcome is not
a terminal state separate from the generic error outcome; no record is
written. -/
theorem invalid_checkpoint_shares_error_status :
    (scanEval (fun _ _ _ _ => 0) c2EnvUnknown).status = ScanStatus.error ∧
    (scanEval (fun _ _ _ _ => 0) c2EnvUnknown).status =
      (scanEval (fun _ _ _ _ => 0) c2EnvInsertFail).status ∧
    (scanEval (fun _ _ _ _ => 0) c2EnvUnknown).inserted = none := by
  rw [scanEval_of_lookup_none _ _ (by decide),
    scanEval_of_insert_fail _ _ c2Checkpoint (by decide) (by decide)
      (by decide)]
  exact ⟨rfl, rfl, rfl⟩

/-- C2 (amended): for every payload whose resolved identifier matches
no checkpoint in the directory, the evaluation terminates with the
generic error status carrying the invalid-checkpoint message — the code
distinguishes this case only by the message, not by a separate status —
and no Scan record is written. -/
theorem invalid_checkpoint_generic_error
    (dist : ℚ → ℚ → ℚ → ℚ → ℚ) (env : ScanEnv)
    (h : lookupCheckpoint env.directory (resolveCheckpointId env.payload)
      = none) :
    (scanEval dist env).status = ScanStatus.error ∧
    (scanEval dist env).errorMessage = invalidCheckpointMsg ∧
    (scanEval dist env).inserted = none := by
  rw [scanEval_of_lookup_none dist env h]
  exact ⟨rfl, rfl, rfl⟩

/-- Witness for the amended C2 at a payload with no matching
checkpoint. -/
theorem invalid_checkpoint_generic_error_witness :
    lookupCheckpoint c2EnvUnknown.directory
      (resolveCheckpointId c2EnvUnknown.payload) = none ∧
    ((scanEval (fun _ _ _ _ => 1) c2EnvUnknown).status =
        ScanStatus.error ∧
      (scanEval (fun _ _ _ _ => 1) c2EnvUnknown).errorMessage =
        invalidCheckpointMsg ∧
      (scanEval (fun _ _ _ _ => 1) c2EnvUnknown).inserted = none) :=
  ⟨by decide, invalid_checkpoint_generic_error _ c2EnvUnknown (by decide)⟩

/-- C3 counterexample: with a prior scan of the same checkpoint by the
same guard exactly 5 minutes (300 seconds) earlier, the code classifies
the second scan as a duplicate and writes nothing — the scanned-at
comparison is inclusive — contradicting the claim that 5 minutes or
more elapsed is not a duplicate. -/
theorem exact_five_minute_boundary_is_duplicate :
    c3Env.now - c3PriorScan.scanned_at = 300 ∧
    (scanEval (fun _ _ _ _ => 0) c3Env).status = ScanStatus.duplicate ∧
    (scanEval (fun _ _ _ _ => 0) c3Env).inserted = none := by
  have hmem : c3PriorScan ∈ duplicateWindowScans c3Env.ledger
      c3Env.guardId (resolveCheckpointId c3Env.payload) c3Env.now :=
    mem_duplicateWindowScans.2
      ⟨by decide, rfl, by decide, by norm_num [c3Env, c3PriorScan]⟩
  have hlen : 0 < (duplicateWindowScans c3Env.ledger c3Env.guardId
      (resolveCheckpointId c3Env.payload) c3Env.now).length :=
    List.length_pos.2 (List.ne_nil_of_mem hmem)
  rw [scanEval_of_duplicate _ _ c3Checkpoint (by decide) hlen]
  exact ⟨by norm_num [c3Env, c3PriorScan], rfl, rfl⟩

/-- C3 (amended): a second scan of the same checkpoint by the same
guard with at most 5 minutes elapsed — including exactly 5 minutes —
yields the duplicate outcome and writes no Scan record, while a second
scan with strictly more than 5 minutes elapsed since every matching
prior scan is not classified as a duplicate. -/
theorem duplicate_window_inclusive_boundary :
    (∀ (dist : ℚ → ℚ → ℚ → ℚ → ℚ) (env : ScanEnv) (cp : Checkpoint)
      (prior : Scan),
      lookupCheckpoint env.directory (resolveCheckpointId env.payload)
        = some cp →
      prior ∈ env.ledger → prior.guard_id = env.guardId →
      prior.checkpoint_id = resolveCheckpointId env.payload →
      env.now - prior.scanned_at ≤ 300 →
      (scanEval dist env).status = ScanStatus.duplicate ∧
      (scanEval dist env).inserted = none) ∧
    (∀ (dist : ℚ → ℚ → ℚ → ℚ → ℚ) (env : ScanEnv) (cp : Checkpoint),
      lookupCheckpoint env.directory (resolveCheckpointId env.payload)
        = some cp →
      (∀ s ∈ env.ledger, s.guard_id = env.guardId →
        s.checkpoint_id = resolveCheckpointId env.payload →
        300 < env.now - s.scanned_at) →
      (scanEval dist env).status ≠ ScanStatus.duplicate) := by
  constructor
  · intro dist env cp prior hcp hmem hg hc ht
    have hmem' : prior ∈ duplicateWindowScans env.ledger env.guardId
        (resolveCheckpointId env.payload) env.now :=
      mem_duplicateWindowScans.2 ⟨hmem, hg, hc, by linarith⟩
    have hlen : 0 < (duplicateWindowScans env.ledger env.guardId
        (resolveCheckpointId env.payload) env.now).length :=
      List.length_pos.2 (List.ne_nil_of_mem hmem')
    rw [scanEval_of_duplicate dist env cp hcp hlen]
    exact ⟨rfl, rfl⟩
  · intro dist env cp hcp hlate
    have hdup : duplicateWindowScans env.ledger env.guardId
        (resolveCheckpointId env.payload) env.now = [] := by
      rw [duplicateWindowScans, List.filter_eq_nil_iff]
      intro s hs
      simp only [Bool.and_eq_true, decide_eq_true_eq, not_and]
      rintro ⟨hg, hc⟩ ht
      have := hlate s hs hg hc
      linarith
    cases hins : env.insertOk with
    | true =>
      rw [scanEval_of_pass dist env cp hcp hdup hins]
      exact scanPassResult_status_not_duplicate dist env cp
    | false =>
      rw [scanEval_of_insert_fail dist env cp hcp hdup hins]
      simp

/-- Witness for the amended C3: a repeat scan 300 seconds later is a
duplicate; a repeat scan 301 seconds later is not. -/
theorem duplicate_window_inclusive_boundary_witness :
    ((scanEval (fun _ _ _ _ => 0) c3Env).status = ScanStatus.duplicate ∧
      (scanEval (fun _ _ _ _ => 0) c3Env).inserted = none) ∧
    (scanEval (fun _ _ _ _ => 0) c3LateEnv).status ≠
      ScanStatus.duplicate :=
  ⟨duplicate_window_inclusive_boundary.1 _ c3Env c3Checkpoint
      c3PriorScan (by decide) (by decide) (by decide) (by decide)
      (by norm_num [c3Env, c3PriorScan]),
    duplicate_window_inclusive_boundary.2 _ c3LateEnv c3Checkpoint
      (by decide)
      (by
        intro s hs hg hc
        have hss : s = c3PriorScan := by
          simpa [c3LateEnv] using hs
        subst hss
        norm_num [c3LateEnv, c3PriorScan])⟩

/-- C4: every scan that passes the checkpoint lookup and the duplicate
check persists a Scan record carrying the guard id and name, the
checkpoint id and name, and the device coordinates when available,
regardless of the computed distance; and a location-warning outcome
reports the computed distance rounded to the nearest meter. -/
theorem scan_persisted_regardless_of_distance
    (dist : ℚ → ℚ → ℚ → ℚ → ℚ) (env : ScanEnv) (cp : Checkpoint)
    (hcp : lookupCheckpoint env.directory (resolveCheckpointId env.payload)
      = some cp)
    (hdup : duplicateWindowScans env.ledger env.guardId
      (resolveCheckpointId env.payload) env.now = [])
    (hins : env.insertOk = true) :
    (scanEval dist env).inserted = some
      ⟨env.guardId, env.guardName, resolveCheckpointId env.payload,
        cp.name, env.deviceLoc.map Prod.fst,
        env.deviceLoc.map Prod.snd⟩ ∧
    ((scanEval dist env).status = ScanStatus.location_warning →
      ∃ d, deviceDistance dist cp env.deviceLoc = some d ∧
        (scanEval dist env).reportedDistanceM = some (jsRound d)) := by
  have hpass := scanEval_of_pass dist env cp hcp hdup hins
  constructor
  · rw [hpass, scanPassResult_inserted]
    rfl
  · intro hw
    rw [hpass] at hw
    have hsome := scanPassResult_warning_isSome dist env cp hw
    cases hd : deviceDistance dist cp env.deviceLoc with
    | none => rw [hd] at hsome; simp at hsome
    | some d0 =>
      refine ⟨d0, rfl, ?_⟩
      rw [hpass, scanPassResult_reported, hd]
      rfl

/-- Witness for C4 at an out-of-range scan: the distance function
reports 150 meters, the outcome is a location warning, and the record
is written with the device's actual coordinates. -/
theorem scan_persisted_regardless_of_distance_witness :
    lookupCheckpoint c4Env.directory (resolveCheckpointId c4Env.payload)
      = some c4Checkpoint ∧
    duplicateWindowScans c4Env.ledger c4Env.guardId
      (resolveCheckpointId c4Env.payload) c4Env.now = [] ∧
    c4Env.insertOk = true ∧
    (scanEval (fun _ _ _ _ => 150) c4Env).status =
      ScanStatus.location_warning ∧
    ((scanEval (fun _ _ _ _ => 150) c4Env).inserted = some
      ⟨c4Env.guardId, c4Env.guardName, resolveCheckpointId c4Env.payload,
        c4Checkpoint.name, c4Env.deviceLoc.map Prod.fst,
        c4Env.deviceLoc.map Prod.snd⟩ ∧
    ((scanEval (fun _ _ _ _ => 150) c4Env).status =
        ScanStatus.location_warning →
      ∃ d, deviceDistance (fun _ _ _ _ => 150) c4Checkpoint
          c4Env.deviceLoc = some d ∧
        (scanEval (fun _ _ _ _ => 150) c4Env).reportedDistanceM =
          some (jsRound d))) :=
  ⟨by decide, by decide, by decide,
    by
      rw [scanEval_of_pass (fun _ _ _ _ => 150) c4Env c4Checkpoint
        (by decide) (by decide) (by decide)]
      decide,
    scan_persisted_regardless_of_distance (fun _ _ _ _ => 150) c4Env
      c4Checkpoint (by decide) (by decide) (by decide)⟩

/-- C5: within one scanning session at most one evaluation is in
flight: a decode callback arriving while the latch is set is ignored
with no state change, any decode callback leaves the latch set, two
rapid decode callbacks from an armed state produce exactly one ledger
insert (one when the first evaluation inserts), any further decode
callbacks before a reset leave the session unchanged, and only the
explicit reset action re-arms the latch. -/
theorem single_flight_latch (dist : ℚ → ℚ → ℚ → ℚ → ℚ) :
    (∀ (s : SessionState) (env : ScanEnv), s.isProcessingScan = true →
      sessionStep dist s (.decode env) = s) ∧
    (∀ (s : SessionState) (env : ScanEnv),
      (sessionStep dist s (.decode env)).isProcessingScan = true) ∧
    (∀ s : SessionState, sessionStep dist s .reset =
      { s with isProcessingScan := false }) ∧
    (∀ (s : SessionState) (env1 env2 : ScanEnv),
      s.isProcessingScan = false →
      (sessionRun dist s [.decode env1, .decode env2]).insertCount =
        s.insertCount +
          (if (scanEval dist env1).inserted.isSome then 1 else 0)) ∧
    (∀ (s : SessionState) (evs : List SessionEvent),
      s.isProcessingScan = true →
      (∀ e ∈ evs, e ≠ SessionEvent.reset) →
      sessionRun dist s evs = s) := by
  refine ⟨?_, ?_, ?_, ?_, ?_⟩
  · intro s env h
    simp [sessionStep, h]
  · intro s env
    by_cases h : s.isProcessingScan = true <;> simp [sessionStep, h]
  · intro s
    rfl
  · intro s env1 env2 h
    simp [sessionRun, sessionStep, h]
  · intro s evs h hnr
    induction evs with
    | nil => rfl
    | cons e es ih =>
      cases e with
      | reset => exact absurd rfl (hnr _ (List.mem_cons_self _ _))
      | decode env =>
        have h1 : sessionStep dist s (.decode env) = s := by
          simp [sessionStep, h]
        show sessionRun dist (sessionStep dist s (.decode env)) es = s
        rw [h1]
        exact ih (fun e he => hnr e (List.mem_cons_of_mem _ he))

/-- Witness for C5: a latched session ignores a decode callback; from
an armed session two rapid decode callbacks count exactly one insert;
a latched session is unchanged by a further decode callback. -/
theorem single_flight_latch_witness :
    sessionStep (fun _ _ _ _ => 0) ⟨true, 0⟩ (.decode c5Env) =
      ⟨true, 0⟩ ∧
    (sessionRun (fun _ _ _ _ => 0) ⟨false, 0⟩
        [.decode c5Env, .decode c5Env]).insertCount =
      0 + (if (scanEval (fun _ _ _ _ => 0) c5Env).inserted.isSome
        then 1 else 0) ∧
    sessionRun (fun _ _ _ _ => 0) ⟨true, 3⟩ [.decode c5Env] =
      ⟨true, 3⟩ :=
  ⟨(single_flight_latch _).1 ⟨true, 0⟩ c5Env rfl,
    (single_flight_latch _).2.2.2.1 ⟨false, 0⟩ c5Env c5Env rfl,
    (single_flight_latch _).2.2.2.2 ⟨true, 3⟩ [.decode c5Env] rfl
      (fun e he => by
        rw [List.mem_singleton] at he
        subst he
        exact fun hh => SessionEvent.noConfusion hh)⟩

/-- C9: a checkpoint or device coordinate that is exactly 0 is falsy to
the presence checks, so GPS verification is skipped even though the
coordinate is present: no distance is computed and the scan classifies
as success no matter what the distance function would have returned. -/
theorem zero_coordinate_skips_verification
    (dist : ℚ → ℚ → ℚ → ℚ → ℚ) (env : ScanEnv) (cp : Checkpoint)
    (la ln : ℚ)
    (hcp : lookupCheckpoint env.directory (resolveCheckpointId env.payload)
      = some cp)
    (hdup : duplicateWindowScans env.ledger env.guardId
      (resolveCheckpointId env.payload) env.now = [])
    (hins : env.insertOk = true)
    (hloc : env.deviceLoc = some (la, ln))
    (hzero : cp.latitude = some 0 ∨ cp.longitude = some 0 ∨
      la = 0 ∨ ln = 0) :
    deviceDistance dist cp env.deviceLoc = none ∧
    (scanEval dist env).status = ScanStatus.success := by
  have hd : deviceDistance dist cp env.deviceLoc = none := by
    rw [hloc]
    rcases hzero with h | h | h | h <;> simp [deviceDistance, h, truthy]
  rw [scanEval_of_pass dist env cp hcp hdup hins]
  exact ⟨hd, scanPassResult_status_success_of_none dist env cp hd⟩

/-- Witness for C9: a checkpoint on the equator (latitude exactly 0)
scanned from a device position 100 km away still classifies as
success, with no distance computed. -/
theorem zero_coordinate_skips_verification_witness :
    c9Checkpoint.latitude = some 0 ∧
    deviceDistance (fun _ _ _ _ => 100000) c9Checkpoint
      c9Env.deviceLoc = none ∧
    (scanEval (fun _ _ _ _ => 100000) c9Env).status =
      ScanStatus.success :=
  ⟨by decide,
    (zero_coordinate_skips_verification (fun _ _ _ _ => 100000) c9Env
      c9Checkpoint 45 120 (by decide) (by decide) (by decide)
      (by decide) (Or.inl (by decide))).1,
    (zero_coordinate_skips_verification (fun _ _ _ _ => 100000) c9Env
      c9Checkpoint 45 120 (by decide) (by decide) (by decide)
      (by decide) (Or.inl (by decide))).2⟩

/-- C1: evaluation of the code at the failing input — a checkpoint
whose configured allowed radius is 250 meters and a device 150 meters
away — yields a location warning, because the classification threshold
is the hard-coded 100-meter constant and the checkpoint's configured
radius field is never consulted; the spec and the schema comment on the
radius column say 150 meters inside a 250-meter radius must be a
success. -/
theorem hardcoded_threshold_ignores_configured_radius :
    c1Checkpoint.distance = some 250 ∧
    MAX_DISTANCE_METERS = 100 ∧
    (scanEval (fun _ _ _ _ => 150) c1Env).status =
      ScanStatus.location_warning := by
  refine ⟨rfl, rfl, ?_⟩
  rw [scanEval_of_pass (fun _ _ _ _ => 150) c1Env c1Checkpoint
    (by decide) (by decide) (by decide)]
  decide
